import Mathlib

/-!
Shallow embedding of `src/lambda_function.py` (AZ health-check lambda).

The core is `analyze_health_status`, a pure classifier from an AZ-state
snapshot and a list of health events to a health verdict.  Python dict
fields that may be absent are modelled as `Option`; Python truthiness of
the values the code tests is modelled explicitly; f-string rendering of a
possibly-`None` value is modelled by `pyStr`.  Timestamps are opaque: the
code only ever calls `.isoformat()` on them, so a timestamp is modelled
as the ISO string it would render to.
-/

/-- Python truthiness of an optional list (`None` and `[]` are falsy). -/
def pyTruthyList (l : Option (List String)) : Bool :=
  match l with
  | none => false
  | some xs => !xs.isEmpty

/-- Python truthiness of an optional string (`None` and `""` are falsy). -/
def pyTruthyStr (s : Option String) : Bool :=
  match s with
  | none => false
  | some x => !x.isEmpty

/-- Python truthiness of an optional bool (`None` and `False` are falsy):
models `az_info.get('exists')` used as a condition. -/
def pyTruthyBool (b : Option Bool) : Bool :=
  b.getD false

/-- Rendering of a possibly-absent string inside a Python f-string:
`None` prints as `"None"`, a string prints as itself. -/
def pyStr (s : Option String) : String :=
  match s with
  | none => "None"
  | some x => x

/-- Python dict indexing `d[key]`: raises `KeyError` when the key is
absent.  Used to model the one direct (non-`get`) dict access of the
classifier, `az_info['messages']`. -/
def dictIndex {α : Type} (v : Option α) (key : String) : Except String α :=
  match v with
  | some a => Except.ok a
  | none => Except.error ("KeyError: " ++ key)

/-- The AZ-state snapshot consumed by the classifier (the dict built by
`check_az_status`, lines 93-110 of the source).  Field order follows the
source. -/
structure AZInfo where
  «exists» : Option Bool
  zone_name : Option String
  zone_id : Option String
  state : Option String
  region : Option String
  messages : Option (List String)
  network_border_group : Option String
deriving Repr, DecidableEq

/-- One health event as returned by the Health API (the dict fields the
classifier reads, lines 163-174 of the source). -/
structure HealthEvent where
  arn : Option String
  service : Option String
  eventTypeCode : Option String
  eventTypeCategory : Option String
  statusCode : Option String
  startTime : Option String
  endTime : Option String
  lastUpdatedTime : Option String
deriving Repr, DecidableEq

/-- The per-event summary dict built at lines 165-174 of the source. -/
structure EventInfo where
  arn : Option String
  service : Option String
  event_type_code : Option String
  event_type_category : String
  status : Option String
  start_time : Option String
  end_time : Option String
  last_updated : Option String
deriving Repr, DecidableEq

/-- Builds the `event_info` summary dict for one event (lines 164-174).
`event_type_category` defaults to `""` when absent; a present timestamp
is rendered by `.isoformat()` (identity in this model), an absent one
becomes `None`. -/
def mkEventInfo (event : HealthEvent) : EventInfo :=
  { arn := event.arn
    service := event.service
    event_type_code := event.eventTypeCode
    event_type_category := event.eventTypeCategory.getD ""
    status := event.statusCode
    start_time := event.startTime
    end_time := event.endTime
    last_updated := event.lastUpdatedTime }

/-- The verdict dict returned by `analyze_health_status`.  The error
branch (lines 139-145) carries `health_events`; the success branch
(lines 194-202) carries `critical_events`, `warning_events` and
`az_info`; keys absent from a branch are `none`. -/
structure HealthVerdict where
  status : String
  severity : String
  message : String
  issues : List String
  health_events : Option (List EventInfo)
  critical_events : Option (List EventInfo)
  warning_events : Option (List EventInfo)
  az_info : Option AZInfo
deriving Repr, DecidableEq

/-- The verdict returned by the existence gate (lines 139-145). -/
def azNotFoundVerdict : HealthVerdict :=
  { status := "error"
    severity := "critical"
    message := "Availability Zone does not exist"
    issues := ["AZ not found"]
    health_events := some []
    critical_events := none
    warning_events := none
    az_info := none }

/-- Whether an event category lands in the critical bucket:
`event_type_category in ['issue', 'accountNotification']` (line 176). -/
def isCriticalCategory (c : String) : Bool :=
  c == "issue" || c == "accountNotification"

/-- Rule 2 (lines 148-150): a non-`available` state appends an issue and
sets severity to `critical`.  `acc` is the `(issues, severity)` pair. -/
def applyStateRule (az_info : AZInfo) (acc : List String × String) :
    List String × String :=
  if az_info.state != some "available" then
    (acc.1 ++ ["AZ state is " ++ pyStr az_info.state ++ " (expected: available)"],
     "critical")
  else acc

/-- Rule 3 (lines 153-157): each operator message appends an issue; if
severity is still `healthy`, it is raised to `warning`. -/
def applyMessagesRule (az_info : AZInfo) (acc : List String × String) :
    List String × String :=
  if pyTruthyList az_info.messages then
    (acc.1 ++ (az_info.messages.getD []).map (fun msg => "AZ message: " ++ msg),
     if acc.2 == "healthy" then "warning" else acc.2)
  else acc

/-- The mutable state of the event loop (lines 159-184): current
severity, the shared issue list, and the two event buckets. -/
structure EvLoopState where
  severity : String
  issues : List String
  critical_events : List EventInfo
  warning_events : List EventInfo
deriving Repr, DecidableEq

/-- One iteration of the event loop (lines 163-184): a critical-category
event goes to `critical_events`, appends an issue and forces severity to
`critical`; any other event goes to `warning_events` and raises a
`healthy` severity to `warning`. -/
def stepEvent (s : EvLoopState) (event : HealthEvent) : EvLoopState :=
  let event_type_category := event.eventTypeCategory.getD ""
  let event_info := mkEventInfo event
  if isCriticalCategory event_type_category then
    { severity := if s.severity != "critical" then "critical" else s.severity
      issues := s.issues ++
        ["Critical event: " ++ pyStr event.eventTypeCode ++ " - " ++
          pyStr event.service]
      critical_events := s.critical_events ++ [event_info]
      warning_events := s.warning_events }
  else
    { severity := if s.severity == "healthy" then "warning" else s.severity
      issues := s.issues
      critical_events := s.critical_events
      warning_events := s.warning_events ++ [event_info] }

/-- Rule 5 (lines 187-192): derive the overall status from the final
severity. -/
def statusOf (severity : String) : String :=
  if severity == "critical" then "unhealthy"
  else if severity == "warning" then "degraded"
  else "healthy"

/-- The classifier `analyze_health_status` (lines 120-202), as a pure
total function. -/
def analyze_health_status (az_info : AZInfo) (health_events : List HealthEvent) :
    HealthVerdict :=
  if !pyTruthyBool az_info.«exists» then
    azNotFoundVerdict
  else
    let acc := applyMessagesRule az_info (applyStateRule az_info ([], "healthy"))
    let s := health_events.foldl stepEvent
      { severity := acc.2, issues := acc.1, critical_events := [], warning_events := [] }
    let status := statusOf s.severity
    { status := status
      severity := s.severity
      message := "AZ is " ++ status
      issues := s.issues
      health_events := none
      critical_events := some s.critical_events
      warning_events := some s.warning_events
      az_info := some az_info }

/-- The classifier with Python dict indexing made explicit: the single
direct access `az_info['messages']` (line 154) can in principle raise
`KeyError`, so the whole computation lives in `Except`.  Everything else
uses `.get`, which never raises on a well-typed dict. -/
def analyzeE (az_info : AZInfo) (health_events : List HealthEvent) :
    Except String HealthVerdict := do
  if !pyTruthyBool az_info.«exists» then
    return azNotFoundVerdict
  let acc1 := applyStateRule az_info ([], "healthy")
  let acc2 ←
    if pyTruthyList az_info.messages then do
      let msgs ← dictIndex az_info.messages "messages"
      pure (acc1.1 ++ msgs.map (fun msg => "AZ message: " ++ msg),
            if acc1.2 == "healthy" then "warning" else acc1.2)
    else pure acc1
  let s := health_events.foldl stepEvent
    { severity := acc2.2, issues := acc2.1, critical_events := [], warning_events := [] }
  let status := statusOf s.severity
  return { status := status
           severity := s.severity
           message := "AZ is " ++ status
           issues := s.issues
           health_events := none
           critical_events := some s.critical_events
           warning_events := some s.warning_events
           az_info := some az_info }

/-- Numeric rank of a severity string under `healthy < warning < critical`. -/
def sevRank (severity : String) : Nat :=
  if severity == "critical" then 2
  else if severity == "warning" then 1
  else 0

/-- Closed form for the final severity of the event loop: any
critical-category event forces `critical`; otherwise a non-empty event
list raises `healthy` to `warning`; otherwise the severity is unchanged. -/
def finalSeverity (severity : String) (events : List HealthEvent) : String :=
  if events.any (fun e => isCriticalCategory (e.eventTypeCategory.getD "")) then
    "critical"
  else if !events.isEmpty && severity == "healthy" then "warning"
  else severity

theorem stepEvent_severity_crit (s : EvLoopState) (e : HealthEvent)
    (h : isCriticalCategory (e.eventTypeCategory.getD "") = true) :
    (stepEvent s e).severity = "critical" := by
  by_cases hc : s.severity = "critical" <;> simp [stepEvent, h, hc]

theorem stepEvent_severity_warn (s : EvLoopState) (e : HealthEvent)
    (h : isCriticalCategory (e.eventTypeCategory.getD "") = false) :
    (stepEvent s e).severity =
      if s.severity == "healthy" then "warning" else s.severity := by
  simp [stepEvent, h]

theorem foldl_stepEvent_severity (events : List HealthEvent) (s : EvLoopState) :
    (events.foldl stepEvent s).severity = finalSeverity s.severity events := by
  induction events generalizing s with
  | nil => simp [finalSeverity]
  | cons e es ih =>
    rw [List.foldl_cons, ih]
    by_cases hc : isCriticalCategory (e.eventTypeCategory.getD "")
    · rw [stepEvent_severity_crit s e hc]
      by_cases ha : es.any (fun x => isCriticalCategory (x.eventTypeCategory.getD "")) <;>
        simp [finalSeverity, hc, ha]
    · rw [stepEvent_severity_warn s e (by simpa using hc)]
      by_cases ha : es.any (fun x => isCriticalCategory (x.eventTypeCategory.getD "")) <;>
        by_cases hh : s.severity == "healthy" <;>
          simp [finalSeverity, hc, ha, hh]

theorem foldl_stepEvent_critical_events (events : List HealthEvent) (s : EvLoopState) :
    (events.foldl stepEvent s).critical_events =
      s.critical_events ++
        (events.filter (fun e => isCriticalCategory (e.eventTypeCategory.getD ""))).map
          mkEventInfo := by
  induction events generalizing s with
  | nil => simp
  | cons e es ih =>
    rw [List.foldl_cons, ih, List.filter_cons]
    by_cases hc : isCriticalCategory (e.eventTypeCategory.getD "") <;>
      simp [stepEvent, hc]

theorem foldl_stepEvent_warning_events (events : List HealthEvent) (s : EvLoopState) :
    (events.foldl stepEvent s).warning_events =
      s.warning_events ++
        (events.filter (fun e => !isCriticalCategory (e.eventTypeCategory.getD ""))).map
          mkEventInfo := by
  induction events generalizing s with
  | nil => simp
  | cons e es ih =>
    rw [List.foldl_cons, ih, List.filter_cons]
    by_cases hc : isCriticalCategory (e.eventTypeCategory.getD "") <;>
      simp [stepEvent, hc]

theorem sevRank_le_two (severity : String) : sevRank severity ≤ 2 := by
  unfold sevRank
  split
  · omega
  · split <;> omega

theorem applyStateRule_mono (az_info : AZInfo) (acc : List String × String) :
    sevRank acc.2 ≤ sevRank (applyStateRule az_info acc).2 := by
  unfold applyStateRule
  split
  · simpa [sevRank] using sevRank_le_two acc.2
  · exact Nat.le_refl _

theorem applyMessagesRule_mono (az_info : AZInfo) (acc : List String × String) :
    sevRank acc.2 ≤ sevRank (applyMessagesRule az_info acc).2 := by
  unfold applyMessagesRule
  split
  · by_cases hh : acc.2 = "healthy" <;> simp [sevRank, hh]
  · exact Nat.le_refl _

theorem stepEvent_mono (s : EvLoopState) (e : HealthEvent) :
    sevRank s.severity ≤ sevRank (stepEvent s e).severity := by
  by_cases hc : isCriticalCategory (e.eventTypeCategory.getD "")
  · rw [stepEvent_severity_crit s e hc]
    simpa [sevRank] using sevRank_le_two s.severity
  · rw [stepEvent_severity_warn s e (by simpa using hc)]
    by_cases hh : s.severity = "healthy" <;> simp [sevRank, hh]

theorem foldl_stepEvent_mono (events : List HealthEvent) (s : EvLoopState) :
    sevRank s.severity ≤ sevRank ((events.foldl stepEvent s).severity) := by
  induction events generalizing s with
  | nil => exact Nat.le_refl _
  | cons e es ih =>
    rw [List.foldl_cons]
    exact Nat.le_trans (stepEvent_mono s e) (ih (stepEvent s e))

/-- A healthy AZ snapshot: exists, `available`, no messages. -/
def azAvailable : AZInfo :=
  { «exists» := some true, zone_name := none, zone_id := none,
    state := some "available", region := none, messages := none,
    network_border_group := none }

/-- A concrete event of category `issue`. -/
def evIssue : HealthEvent :=
  { arn := some "arn:aws:health:ev1", service := some "EC2",
    eventTypeCode := some "AWS_EC2_OPERATIONAL_ISSUE",
    eventTypeCategory := some "issue", statusCode := some "open",
    startTime := none, endTime := none, lastUpdatedTime := none }

/-- A concrete event of an informational category. -/
def evOther : HealthEvent :=
  { arn := some "arn:aws:health:ev2", service := some "S3",
    eventTypeCode := some "AWS_S3_PLANNED_CHANGE",
    eventTypeCategory := some "scheduledChange", statusCode := some "upcoming",
    startTime := none, endTime := none, lastUpdatedTime := none }

/-- A Python exception raised by a lookup: `botocore` client errors are
distinguished from all other exceptions by the handler (lines 268-285). -/
inductive PyError where
  | clientError (msg : String)
  | otherError (msg : String)
deriving Repr, DecidableEq

/-- The invocation request (line 209-213). -/
structure LambdaRequest where
  availability_zone : Option String
  region : Option String
deriving Repr, DecidableEq

/-- The JSON body of a handler response: the 400 branch (lines 223-228)
serializes a dict with only an `error` key; the 500 branches (lines
270-285) a dict with `error` and `message`; the 200 branch (lines
254-266) the full result dict. -/
inductive ResponseBody where
  | errorOnly (error : String)
  | errorMessage (error : String) (message : String)
  | success (availability_zone : String) (region : String) (timestamp : String)
      (health : HealthVerdict)
deriving Repr, DecidableEq

/-- A handler response: status code plus serialized body. -/
structure LambdaResponse where
  statusCode : Nat
  body : ResponseBody
deriving Repr, DecidableEq

/-- Whether a response body carries a `message` field. -/
def hasMessageField : ResponseBody → Bool
  | ResponseBody.errorMessage _ _ => true
  | _ => false

/-- The handler `lambda_handler` (lines 205-285).  The two lookups are
passed as function parameters (they wrap network calls); `now` stands
for the wall-clock timestamp of line 257.  Logging and the global EC2
client rebinding (lines 238-242) do not affect the returned value and
are omitted.  A lookup either returns a value or raises a `PyError`;
the `except` clauses map a `ClientError` to the `AWS API error`
envelope and any other exception to the `Internal error` envelope. -/
def lambda_handler (event : LambdaRequest) (now : String)
    (check_az_status : String → Except PyError AZInfo)
    (get_az_health_events : String → String → Except PyError (List HealthEvent)) :
    LambdaResponse :=
  if !pyTruthyStr event.availability_zone then
    { statusCode := 400,
      body := ResponseBody.errorOnly "Missing required parameter: availability_zone" }
  else
    let availability_zone := event.availability_zone.getD ""
    let region :=
      if pyTruthyStr event.region then event.region.getD ""
      else availability_zone.dropRight 1
    match check_az_status availability_zone with
    | Except.error (PyError.clientError m) =>
        { statusCode := 500, body := ResponseBody.errorMessage "AWS API error" m }
    | Except.error (PyError.otherError m) =>
        { statusCode := 500, body := ResponseBody.errorMessage "Internal error" m }
    | Except.ok az_info =>
      match get_az_health_events region availability_zone with
      | Except.error (PyError.clientError m) =>
          { statusCode := 500, body := ResponseBody.errorMessage "AWS API error" m }
      | Except.error (PyError.otherError m) =>
          { statusCode := 500, body := ResponseBody.errorMessage "Internal error" m }
      | Except.ok health_events =>
          { statusCode := 200,
            body := ResponseBody.success availability_zone region now
              (analyze_health_status az_info health_events) }

theorem perm_any {α : Type} (p : α → Bool) {l1 l2 : List α} (h : l1.Perm l2) :
    l1.any p = l2.any p := by
  induction h with
  | nil => rfl
  | cons x _ ih => simp [ih]
  | swap x y l => simp [Bool.or_left_comm]
  | trans _ _ ih1 ih2 => rw [ih1, ih2]

theorem perm_isEmpty {α : Type} {l1 l2 : List α} (h : l1.Perm l2) :
    l1.isEmpty = l2.isEmpty := by
  have hl := h.length_eq
  cases l1 <;> cases l2 <;> simp_all

theorem length_filter_add_length_filter_not {α : Type} (l : List α) (p : α → Bool) :
    (l.filter p).length + (l.filter (fun a => !p a)).length = l.length := by
  induction l with
  | nil => rfl
  | cons x xs ih =>
    rw [List.filter_cons, List.filter_cons]
    by_cases h : p x <;> simp [h] <;> omega

theorem analyze_health_status_of_exists (az_info : AZInfo)
    (events : List HealthEvent) (h : az_info.«exists» = some true) :
    analyze_health_status az_info events =
      (let acc := applyMessagesRule az_info (applyStateRule az_info ([], "healthy"))
       let s := events.foldl stepEvent
         { severity := acc.2, issues := acc.1,
           critical_events := [], warning_events := [] }
       { status := statusOf s.severity
         severity := s.severity
         message := "AZ is " ++ statusOf s.severity
         issues := s.issues
         health_events := none
         critical_events := some s.critical_events
         warning_events := some s.warning_events
         az_info := some az_info }) := by
  simp [analyze_health_status, pyTruthyBool, h]

theorem analyze_severity_eq (az_info : AZInfo) (events : List HealthEvent)
    (h : az_info.«exists» = some true) :
    (analyze_health_status az_info events).severity =
      finalSeverity
        (applyMessagesRule az_info (applyStateRule az_info ([], "healthy"))).2
        events := by
  rw [analyze_health_status_of_exists az_info events h]
  simp [foldl_stepEvent_severity]

theorem analyze_criticals_eq (az_info : AZInfo) (events : List HealthEvent)
    (h : az_info.«exists» = some true) :
    (analyze_health_status az_info events).critical_events =
      some ((events.filter
        (fun e => isCriticalCategory (e.eventTypeCategory.getD ""))).map
          mkEventInfo) := by
  rw [analyze_health_status_of_exists az_info events h]
  simp [foldl_stepEvent_critical_events]

theorem analyze_warnings_eq (az_info : AZInfo) (events : List HealthEvent)
    (h : az_info.«exists» = some true) :
    (analyze_health_status az_info events).warning_events =
      some ((events.filter
        (fun e => !isCriticalCategory (e.eventTypeCategory.getD ""))).map
          mkEventInfo) := by
  rw [analyze_health_status_of_exists az_info events h]
  simp [foldl_stepEvent_warning_events]

theorem analyze_status_eq (az_info : AZInfo) (events : List HealthEvent)
    (h : az_info.«exists» = some true) :
    (analyze_health_status az_info events).status =
      statusOf (analyze_health_status az_info events).severity := by
  rw [analyze_health_status_of_exists az_info events h]

/-- C1: for every AZState whose `exists` field is `false` and every event
sequence (including non-empty or arbitrary ones), the classifier returns
immediately with status `error`, severity `critical`, issues
`["AZ not found"]`, and empty event buckets (`health_events = []`, no
critical/warning bucket entries), evaluating no further rules: the
result is the fixed `azNotFoundVerdict`, independent of state, messages
and events. -/
theorem existence_gate_short_circuit (az_info : AZInfo)
    (events : List HealthEvent) (h : az_info.«exists» = some false) :
    analyze_health_status az_info events = azNotFoundVerdict ∧
    (analyze_health_status az_info events).status = "error" ∧
    (analyze_health_status az_info events).severity = "critical" ∧
    (analyze_health_status az_info events).issues = ["AZ not found"] ∧
    (analyze_health_status az_info events).health_events = some [] ∧
    (analyze_health_status az_info events).critical_events = none ∧
    (analyze_health_status az_info events).warning_events = none := by
  have ht : pyTruthyBool az_info.«exists» = false := by
    simp [pyTruthyBool, h]
  refine ⟨?_, ?_, ?_, ?_, ?_, ?_, ?_⟩ <;>
    simp [analyze_health_status, ht, azNotFoundVerdict]

/-- Witness for C1 at a concrete non-existent AZ with a non-empty,
all-fields-absent ("malformed") event list. -/
theorem existence_gate_short_circuit_witness :
    (({ «exists» := some false, zone_name := none, zone_id := none,
        state := none, region := none, messages := none,
        network_border_group := none } : AZInfo)).«exists» = some false ∧
    analyze_health_status
      { «exists» := some false, zone_name := none, zone_id := none,
        state := none, region := none, messages := none,
        network_border_group := none }
      [{ arn := none, service := none, eventTypeCode := none,
         eventTypeCategory := none, statusCode := none, startTime := none,
         endTime := none, lastUpdatedTime := none }] = azNotFoundVerdict :=
  ⟨rfl, (existence_gate_short_circuit _ _ rfl).1⟩

/-- C2: severity never decreases at any step of rules 2-4.  Under the
rank `healthy = 0 < warning = 1 < critical = 2`, the severity after the
lifecycle-state rule, after the operator-message rule, after one event
step, and after the whole event loop is always ≥ the severity before. -/
theorem severity_monotone (az_info : AZInfo) (acc : List String × String)
    (s : EvLoopState) (e : HealthEvent) (events : List HealthEvent) :
    sevRank acc.2 ≤ sevRank (applyStateRule az_info acc).2 ∧
    sevRank acc.2 ≤ sevRank (applyMessagesRule az_info acc).2 ∧
    sevRank s.severity ≤ sevRank (stepEvent s e).severity ∧
    sevRank s.severity ≤ sevRank ((events.foldl stepEvent s).severity) ∧
    sevRank "healthy" < sevRank "warning" ∧
    sevRank "warning" < sevRank "critical" :=
  ⟨applyStateRule_mono az_info acc, applyMessagesRule_mono az_info acc,
   stepEvent_mono s e, foldl_stepEvent_mono events s,
   by decide, by decide⟩

/-- C3: for an existing AZ, permuting the event sequence leaves the final
severity unchanged and the two buckets equal as sets; moreover the
buckets are exactly the per-event partition of the input by category
(so each event is visited once and its bucket depends only on itself),
and the bucket sizes sum to the number of input events. -/
theorem event_partition_perm_invariant (az_info : AZInfo)
    (es1 es2 : List HealthEvent) (hex : az_info.«exists» = some true)
    (hperm : es1.Perm es2) :
    (analyze_health_status az_info es1).severity =
      (analyze_health_status az_info es2).severity ∧
    (∀ x : EventInfo,
      x ∈ ((analyze_health_status az_info es1).critical_events.getD []) ↔
      x ∈ ((analyze_health_status az_info es2).critical_events.getD [])) ∧
    (∀ x : EventInfo,
      x ∈ ((analyze_health_status az_info es1).warning_events.getD []) ↔
      x ∈ ((analyze_health_status az_info es2).warning_events.getD [])) ∧
    (analyze_health_status az_info es1).critical_events =
      some ((es1.filter
        (fun e => isCriticalCategory (e.eventTypeCategory.getD ""))).map
          mkEventInfo) ∧
    (analyze_health_status az_info es1).warning_events =
      some ((es1.filter
        (fun e => !isCriticalCategory (e.eventTypeCategory.getD ""))).map
          mkEventInfo) ∧
    ((analyze_health_status az_info es1).critical_events.getD []).length +
      ((analyze_health_status az_info es1).warning_events.getD []).length =
      es1.length := by
  refine ⟨?_, ?_, ?_, analyze_criticals_eq az_info es1 hex,
    analyze_warnings_eq az_info es1 hex, ?_⟩
  · rw [analyze_severity_eq az_info es1 hex, analyze_severity_eq az_info es2 hex]
    unfold finalSeverity
    rw [perm_any _ hperm, perm_isEmpty hperm]
  · intro x
    rw [analyze_criticals_eq az_info es1 hex, analyze_criticals_eq az_info es2 hex]
    simp only [Option.getD_some]
    exact ((hperm.filter _).map mkEventInfo).mem_iff
  · intro x
    rw [analyze_warnings_eq az_info es1 hex, analyze_warnings_eq az_info es2 hex]
    simp only [Option.getD_some]
    exact ((hperm.filter _).map mkEventInfo).mem_iff
  · rw [analyze_criticals_eq az_info es1 hex, analyze_warnings_eq az_info es1 hex]
    simp only [Option.getD_some, List.length_map]
    exact length_filter_add_length_filter_not es1 _

/-- Witness for C3: swapping a critical and an informational event leaves
the final severity unchanged. -/
theorem event_partition_perm_invariant_witness :
    azAvailable.«exists» = some true ∧
    (analyze_health_status azAvailable [evIssue, evOther]).severity =
      (analyze_health_status azAvailable [evOther, evIssue]).severity :=
  ⟨rfl, (event_partition_perm_invariant azAvailable [evIssue, evOther]
    [evOther, evIssue] rfl (List.Perm.swap evOther evIssue [])).1⟩

/-- C4: each operator message appends exactly one issue quoting it, the
message rule only ever raises severity from `healthy` to `warning`
(otherwise severity is untouched), and the concrete verdict for an
existing available AZ with `messages = ["scheduled maintenance"]` and no
events is `degraded`/`warning` with exactly one issue referencing the
message. -/
theorem operator_message_rule (az_info : AZInfo) (acc : List String × String) :
    (applyMessagesRule az_info acc).1 =
      acc.1 ++ (az_info.messages.getD []).map (fun msg => "AZ message: " ++ msg) ∧
    ((applyMessagesRule az_info acc).2 = acc.2 ∨
      (acc.2 = "healthy" ∧ (applyMessagesRule az_info acc).2 = "warning")) ∧
    analyze_health_status
      { «exists» := some true, zone_name := none, zone_id := none,
        state := some "available", region := none,
        messages := some ["scheduled maintenance"], network_border_group := none }
      [] =
      { status := "degraded", severity := "warning",
        message := "AZ is degraded",
        issues := ["AZ message: scheduled maintenance"],
        health_events := none, critical_events := some [],
        warning_events := some [],
        az_info := some
          { «exists» := some true, zone_name := none, zone_id := none,
            state := some "available", region := none,
            messages := some ["scheduled maintenance"],
            network_border_group := none } } := by
  refine ⟨?_, ?_, by decide⟩
  · rcases hm : az_info.messages with _ | msgs
    · simp [applyMessagesRule, pyTruthyList, hm]
    · cases msgs with
      | nil => simp [applyMessagesRule, pyTruthyList, hm]
      | cons m ms => simp [applyMessagesRule, pyTruthyList, hm]
  · unfold applyMessagesRule
    split
    · by_cases hh : acc.2 = "healthy"
      · exact Or.inr ⟨hh, by simp [hh]⟩
      · exact Or.inl (by simp [hh])
    · exact Or.inl rfl

/-- C5: for an existing `available` AZ with no messages and one event of
category `issue`, the verdict is `unhealthy`/`critical`, the event's
summary is in `critical_events` and not in `warning_events`, and the one
issue names the event's type code and service. -/
theorem critical_event_dominates (e : HealthEvent)
    (h : e.eventTypeCategory = some "issue") :
    (analyze_health_status azAvailable [e]).status = "unhealthy" ∧
    (analyze_health_status azAvailable [e]).severity = "critical" ∧
    (analyze_health_status azAvailable [e]).critical_events =
      some [mkEventInfo e] ∧
    (analyze_health_status azAvailable [e]).warning_events = some [] ∧
    mkEventInfo e ∈ ((analyze_health_status azAvailable [e]).critical_events.getD []) ∧
    mkEventInfo e ∉ ((analyze_health_status azAvailable [e]).warning_events.getD []) ∧
    (analyze_health_status azAvailable [e]).issues =
      ["Critical event: " ++ pyStr e.eventTypeCode ++ " - " ++ pyStr e.service] := by
  have hex : azAvailable.«exists» = some true := rfl
  have hc : isCriticalCategory (e.eventTypeCategory.getD "") = true := by
    simp [isCriticalCategory, h]
  refine ⟨?_, ?_, ?_, ?_, ?_, ?_, ?_⟩
  · rw [analyze_status_eq _ _ hex, analyze_severity_eq _ _ hex]
    simp [finalSeverity, hc, statusOf]
  · rw [analyze_severity_eq _ _ hex]
    simp [finalSeverity, hc]
  · rw [analyze_criticals_eq _ _ hex]
    simp [hc]
  · rw [analyze_warnings_eq _ _ hex]
    simp [hc]
  · rw [analyze_criticals_eq _ _ hex]
    simp [hc]
  · rw [analyze_warnings_eq _ _ hex]
    simp [hc]
  · rw [analyze_health_status_of_exists _ _ hex]
    simp [applyStateRule, applyMessagesRule, azAvailable, pyTruthyList,
      stepEvent, hc]

/-- Witness for C5 at the concrete `issue`-category event. -/
theorem critical_event_dominates_witness :
    evIssue.eventTypeCategory = some "issue" ∧
    (analyze_health_status azAvailable [evIssue]).status = "unhealthy" :=
  ⟨rfl, (critical_event_dominates evIssue rfl).1⟩

/-- C6: for an existing AZ the final status is `statusOf` of the final
severity, with `critical ↦ unhealthy`, `warning ↦ degraded`,
`healthy ↦ healthy`; this mapping never yields `error`, so the `error`
status arises only from the existence gate. -/
theorem status_derivation (az_info : AZInfo) (events : List HealthEvent)
    (h : az_info.«exists» = some true) :
    (analyze_health_status az_info events).status =
      statusOf (analyze_health_status az_info events).severity ∧
    (analyze_health_status az_info events).status ≠ "error" ∧
    statusOf "critical" = "unhealthy" ∧
    statusOf "warning" = "degraded" ∧
    statusOf "healthy" = "healthy" ∧
    (∀ sev : String, statusOf sev ≠ "error") := by
  have hmap : ∀ sev : String, statusOf sev ≠ "error" := by
    intro sev
    unfold statusOf
    split
    · decide
    · split <;> decide
  refine ⟨analyze_status_eq az_info events h, ?_, by decide, by decide,
    by decide, hmap⟩
  rw [analyze_status_eq az_info events h]
  exact hmap _

/-- Witness for C6 at the healthy baseline AZ with no events. -/
theorem status_derivation_witness :
    azAvailable.«exists» = some true ∧
    (analyze_health_status azAvailable []).status =
      statusOf (analyze_health_status azAvailable []).severity :=
  ⟨rfl, (status_derivation azAvailable [] rfl).1⟩

/-- C7: an existing `available` AZ with an empty message list and no
events yields status `healthy`, severity `healthy`, empty issues. -/
theorem empty_input_baseline :
    analyze_health_status
      { «exists» := some true, zone_name := none, zone_id := none,
        state := some "available", region := none, messages := some [],
        network_border_group := none } [] =
      { status := "healthy", severity := "healthy",
        message := "AZ is healthy", issues := [],
        health_events := none, critical_events := some [],
        warning_events := some [],
        az_info := some
          { «exists» := some true, zone_name := none, zone_id := none,
            state := some "available", region := none, messages := some [],
            network_border_group := none } } := by
  decide

/-- C8: the classifier is total over well-typed input: the variant in
which the one direct dict access (`az_info['messages']`, the only
statement of the function that could raise on a well-typed dict) is
modelled in `Except` always succeeds, returning exactly the pure
classifier's verdict — for every state (including all-absent optional
fields) and every event list. -/
theorem classifier_total (az_info : AZInfo) (events : List HealthEvent) :
    analyzeE az_info events =
      Except.ok (analyze_health_status az_info events) := by
  unfold analyzeE analyze_health_status
  by_cases hex : pyTruthyBool az_info.«exists»
  · rcases hm : az_info.messages with _ | msgs
    · simp [hex, hm, applyMessagesRule, pyTruthyList, dictIndex]
      rfl
    · by_cases he : msgs.isEmpty
      · simp [hex, hm, he, applyMessagesRule, pyTruthyList, dictIndex]
        rfl
      · simp [hex, hm, he, applyMessagesRule, pyTruthyList, dictIndex]
  · simp [hex]
    rfl

/-- C9 counterexample: for a request with no `availability_zone`, the
handler does return a 400, but its body is a dict with only an `error`
key — it carries no `message` string, so the body is not the
two-field error envelope the claim describes. -/
theorem missing_az_no_message_field :
    (lambda_handler { availability_zone := none, region := none }
        "2026-10-12T00:00:00" (fun _ => Except.ok azAvailable)
        (fun _ _ => Except.ok [])).statusCode = 400 ∧
    (lambda_handler { availability_zone := none, region := none }
        "2026-10-12T00:00:00" (fun _ => Except.ok azAvailable)
        (fun _ _ => Except.ok [])).body =
      ResponseBody.errorOnly "Missing required parameter: availability_zone" ∧
    hasMessageField
      (lambda_handler { availability_zone := none, region := none }
        "2026-10-12T00:00:00" (fun _ => Except.ok azAvailable)
        (fun _ _ => Except.ok [])).body = false :=
  ⟨rfl, rfl, rfl⟩

/-- C9 (amended): for every request in which `availability_zone` is
absent, the handler returns a 400 result whose body contains only an
`error` string (no `message` field), and the result is independent of
the lookup collaborators — no lookup and no classifier call influences
it. -/
theorem missing_az_bad_request (req : LambdaRequest) (now : String)
    (c1 c2 : String → Except PyError AZInfo)
    (g1 g2 : String → String → Except PyError (List HealthEvent))
    (h : req.availability_zone = none) :
    lambda_handler req now c1 g1 =
      { statusCode := 400,
        body := ResponseBody.errorOnly
          "Missing required parameter: availability_zone" } ∧
    lambda_handler req now c1 g1 = lambda_handler req now c2 g2 := by
  have ht : pyTruthyStr req.availability_zone = false := by
    rw [h]
    rfl
  constructor <;> simp [lambda_handler, ht]

/-- Witness for the amended C9 at a concrete empty request. -/
theorem missing_az_bad_request_witness :
    ({ availability_zone := none, region := none } : LambdaRequest).availability_zone
        = none ∧
    lambda_handler { availability_zone := none, region := none } "t"
        (fun _ => Except.error (PyError.otherError "boom"))
        (fun _ _ => Except.error (PyError.otherError "boom")) =
      { statusCode := 400,
        body := ResponseBody.errorOnly
          "Missing required parameter: availability_zone" } :=
  ⟨rfl,
   (missing_az_bad_request { availability_zone := none, region := none } "t"
      (fun _ => Except.error (PyError.otherError "boom"))
      (fun _ => Except.error (PyError.otherError "boom"))
      (fun _ _ => Except.error (PyError.otherError "boom"))
      (fun _ _ => Except.error (PyError.otherError "boom")) rfl).1⟩

/-- C10: an event whose category is absent (the `.get` default `""` is
not critical) or any value outside `issue`/`accountNotification` is
appended to `warning_events`, adds nothing to `issues`, leaves
`critical_events` alone, and raises severity to `warning` exactly when
the current severity is `healthy`. -/
theorem noncritical_event_rule (s : EvLoopState) (e : HealthEvent)
    (h : isCriticalCategory (e.eventTypeCategory.getD "") = false) :
    stepEvent s e =
      { severity := if s.severity == "healthy" then "warning" else s.severity,
        issues := s.issues,
        critical_events := s.critical_events,
        warning_events := s.warning_events ++ [mkEventInfo e] } ∧
    isCriticalCategory ((none : Option String).getD "") = false := by
  constructor
  · simp [stepEvent, h]
  · decide

/-- Witness for C10: a `scheduledChange` event, starting from `healthy`. -/
theorem noncritical_event_rule_witness :
    isCriticalCategory (evOther.eventTypeCategory.getD "") = false ∧
    stepEvent { severity := "healthy", issues := [], critical_events := [],
                warning_events := [] } evOther =
      { severity := "warning", issues := [], critical_events := [],
        warning_events := [mkEventInfo evOther] } :=
  ⟨by decide,
   ((noncritical_event_rule
      { severity := "healthy", issues := [], critical_events := [],
        warning_events := [] } evOther (by decide)).1).trans (by decide)⟩
